import Mathlib

/-!
Verification development for the TheRepairIntel backend (src/server.js).

The file shallowly embeds the report-generation pipeline: the data model of
the analyzer's structured answer, the report formatter `generateReportText`,
and the `/api/process-report` orchestration as an explicit trace semantics.
JavaScript numbers that hold repair costs are modelled as `Nat` (the spec's
data model declares them non-negative numeric amounts), strings as Lean
`String`, and ambient effects (current date, external collaborator outcomes)
as explicit parameters.
-/

namespace RepairIntel

/-- One inspection item referenced by a repair category, per the JSON schema
in the analyzer prompt of src/server.js. -/
structure InspectionItem where
  section_number : String
  description : String
  deriving DecidableEq, Repr

/-- One repair category of the analyzer's structured answer. -/
structure RepairCategory where
  category_name : String
  inspection_items : List InspectionItem
  handyman_cost : Nat
  contractor_cost : Nat
  recommended_trade : String
  deriving DecidableEq, Repr

/-- The analyzer's structured answer (`analysis` in src/server.js): the
ordered repair categories plus the three boolean content flags. -/
structure Analysis where
  repair_categories : List RepairCategory
  termites_mentioned : Bool
  pests_mentioned : Bool
  rot_mentioned : Bool
  deriving DecidableEq, Repr

/-- The ambient date used by the report template: `new Date()` contributes
a locale-formatted date string and a calendar year. It is the only
non-deterministic input of the formatter, made explicit here. -/
structure DateCtx where
  localeDateString : String
  year : Nat
  deriving DecidableEq, Repr

/-- Reversed-digit helper for thousands grouping: inserts a comma after
every three characters of a reversed digit list. -/
def insertThousandsSepRev : List Char → List Char
  | a :: b :: c :: d :: rest => a :: b :: c :: ',' :: insertThousandsSepRev (d :: rest)
  | l => l

/-- Embedding of `Number.prototype.toLocaleString()` as used in src/server.js on the
cost amounts, for non-negative integers in the default en-US locale:
decimal digits grouped in threes by commas. -/
def natToLocaleString (n : Nat) : String :=
  String.mk (insertThousandsSepRev (toString n).data.reverse).reverse

/-- Concatenation of a list of strings in order, the accumulated effect of
the `report += ...` statements performed by a `forEach` loop. -/
def strJoin : List String → String
  | [] => ""
  | s :: rest => s ++ strJoin rest

/-- The 43-character double rule used in the report template. -/
def doubleRule : String := "═══════════════════════════════════════════"

/-- The 40-character heavy rule used in the report header. -/
def heavyRule : String := "━━━━━━━━━━━━━━━━━━━━━━━━━━━━━━━━━━━━━━━━"

/-- The 43-character light rule used between category blocks. -/
def lightRule : String := "───────────────────────────────────────────"

/-- The initial `report` template literal of `generateReportText`
(src/server.js lines 152-172). -/
def reportHeaderText (firstName lastName propertyAddress : String) (now : DateCtx) : String :=
  doubleRule ++ "\n         THE REPAIR INTEL\n   COST ANALYSIS INTELLIGENCE REPORT\n"
  ++ doubleRule
  ++ "\n\nPREPARED FOR:      " ++ firstName ++ " " ++ lastName
  ++ "\nPROPERTY ADDRESS:  " ++ propertyAddress
  ++ "\nDATE PREPARED:     " ++ now.localeDateString
  ++ "\nPREPARED BY:       Anarumo Inspection Services\n\n"
  ++ heavyRule
  ++ "\n\nEXECUTIVE SUMMARY\n\nThis intelligence report provides repair cost estimates \nbased on your home inspection findings. Costs are shown \nas HANDYMAN to CONTRACTOR ranges.\n\n"
  ++ doubleRule ++ "\n\n"

/-- The text appended for one repair category by the `forEach` body of
`generateReportText` (src/server.js lines 175-183), separator excluded. -/
def categoryText (cat : RepairCategory) : String :=
  cat.category_name ++ "\n\n"
  ++ "Estimated Range: Handyman to Contractor\n"
  ++ "  Handyman Cost:   $" ++ natToLocaleString cat.handyman_cost ++ "\n"
  ++ "  Contractor Cost: $" ++ natToLocaleString cat.contractor_cost ++ "\n\n"
  ++ "Referenced inspection items:\n"
  ++ strJoin (cat.inspection_items.map (fun item =>
       "  • Section " ++ item.section_number ++ " – " ++ item.description ++ "\n"))
  ++ "\nRecommended Trade: " ++ cat.recommended_trade ++ "\n"

/-- The visual separator appended after a category block when it is not the
last one (src/server.js lines 185-187). -/
def categorySeparator : String := "\n" ++ lightRule ++ "\n\n"

/-- The totals/footer block of `generateReportText`
(src/server.js lines 193-204). -/
def totalsFooterText (totalHandyman totalContractor : Nat) (now : DateCtx) : String :=
  "\n" ++ doubleRule
  ++ "\n\nTOTAL ESTIMATED REPAIR RANGE\n\nHandyman Total:   $"
  ++ natToLocaleString totalHandyman
  ++ "\nContractor Total: $" ++ natToLocaleString totalContractor
  ++ "\n\nNote: These estimates are for negotiation context only.\n\n"
  ++ doubleRule
  ++ "\n© " ++ toString now.year ++ " The Repair Intel\n"

/-- The function `generateReportText` of src/server.js (lines 151-207): header, then for
each category (with its zero-based index) the category text followed by the
separator exactly when `idx < length - 1`, then the totals footer computed
by the two `reduce` folds. -/
def generateReportText (firstName lastName propertyAddress : String)
    (analysis : Analysis) (now : DateCtx) : String :=
  reportHeaderText firstName lastName propertyAddress now
  ++ strJoin ((analysis.repair_categories.enum).map (fun p =>
       categoryText p.2 ++
         if p.1 < analysis.repair_categories.length - 1 then categorySeparator else ""))
  ++ totalsFooterText
       (analysis.repair_categories.foldl (fun sum cat => sum + cat.handyman_cost) 0)
       (analysis.repair_categories.foldl (fun sum cat => sum + cat.contractor_cost) 0)
       now

example : natToLocaleString 1200 = "1,200" := by decide

example : natToLocaleString 500 = "500" := by decide

example : natToLocaleString 1234567 = "1,234,567" := by decide

/-- Lowercase hexadecimal digit, for JSON control-character escapes. -/
def hexDigit (n : Nat) : Char :=
  if n < 10 then Char.ofNat (48 + n) else Char.ofNat (87 + n)

/-- The `JSON.stringify` escaping of a single character. -/
def escapeJsonChar (c : Char) : List Char :=
  if c = '"' then ['\\', '"']
  else if c = '\\' then ['\\', '\\']
  else if c = '\x08' then ['\\', 'b']
  else if c = '\x0c' then ['\\', 'f']
  else if c = '\n' then ['\\', 'n']
  else if c = '\r' then ['\\', 'r']
  else if c = '\t' then ['\\', 't']
  else if c.toNat < 32 then
    ['\\', 'u', '0', '0', hexDigit (c.toNat / 16), hexDigit (c.toNat % 16)]
  else [c]

/-- The `JSON.stringify` escaping of the characters of a string. -/
def escapeJsonString (s : String) : String :=
  String.mk (s.data.map escapeJsonChar).flatten

/-- A JSON string literal. -/
def jsonStr (s : String) : String := "\"" ++ escapeJsonString s ++ "\""

/-- A JSON boolean literal. -/
def jsonBool (b : Bool) : String := if b then "true" else "false"

/-- Serialization (`JSON.stringify`) of one inspection item, keys in schema order. -/
def serializeInspectionItem (it : InspectionItem) : String :=
  "\x7b\"section_number\":" ++ jsonStr it.section_number
  ++ ",\"description\":" ++ jsonStr it.description ++ "\x7d"

/-- Serialization (`JSON.stringify`) of one repair category, keys in schema order. -/
def serializeCategory (cat : RepairCategory) : String :=
  "\x7b\"category_name\":" ++ jsonStr cat.category_name
  ++ ",\"inspection_items\":["
  ++ String.intercalate "," (cat.inspection_items.map serializeInspectionItem)
  ++ "],\"handyman_cost\":" ++ toString cat.handyman_cost
  ++ ",\"contractor_cost\":" ++ toString cat.contractor_cost
  ++ ",\"recommended_trade\":" ++ jsonStr cat.recommended_trade ++ "\x7d"

/-- Serialization `JSON.stringify(analysis)`, the serialized CostEstimate stored in the
`report_data` column (src/server.js line 133), keys in schema order. -/
def serializeAnalysis (a : Analysis) : String :=
  "\x7b\"repair_categories\":["
  ++ String.intercalate "," (a.repair_categories.map serializeCategory)
  ++ "],\"termites_mentioned\":" ++ jsonBool a.termites_mentioned
  ++ ",\"pests_mentioned\":" ++ jsonBool a.pests_mentioned
  ++ ",\"rot_mentioned\":" ++ jsonBool a.rot_mentioned ++ "\x7d"

/-- The fixed part of the analyzer prompt template of src/server.js
lines 103-121, up to and including "Inspection text: ". -/
def promptTemplate : String :=
  "Analyze this home inspection report and create repair cost estimates.\n        \nReturn JSON with this structure:\n\x7b\n  \"repair_categories\": [\n    \x7b\n      \"category_name\": \"string\",\n      \"inspection_items\": [\x7b\"section_number\": \"string\", \"description\": \"string\"\x7d],\n      \"handyman_cost\": number,\n      \"contractor_cost\": number,\n      \"recommended_trade\": \"string\"\n    \x7d\n  ],\n  \"termites_mentioned\": boolean,\n  \"pests_mentioned\": boolean,\n  \"rot_mentioned\": boolean\n\x7d\n\nInspection text: "

/-- Embedding of `pdfText.substring(0, 40000)` (src/server.js line 121): the hard
character truncation applied to the extracted text before submission. -/
def analyzerInput (pdfText : String) : String :=
  String.mk (pdfText.data.take 40000)

/-- The full prompt submitted to the analyzer: fixed template followed by
the truncated inspection text. -/
def promptFor (pdfText : String) : String :=
  promptTemplate ++ analyzerInput pdfText

/-- The text fields of the multipart `/api/process-report` request body. -/
structure ReqBody where
  firstName : String
  lastName : String
  email : String
  phone : String
  propertyAddress : String
  deriving DecidableEq, Repr

/-- A row of the `reports` table (schema at src/server.js lines 25-39).
`payment_id` and `payment_amount` are `Option` because the schema declares
the columns but an INSERT may leave them NULL. -/
structure StoredRecord where
  first_name : String
  last_name : String
  email : String
  phone : String
  property_address : String
  payment_id : Option String
  payment_amount : Option Nat
  report_data : String
  termites_mentioned : Bool
  pests_mentioned : Bool
  rot_mentioned : Bool
  deriving DecidableEq, Repr

/-- Observable side effects of one `/api/process-report` run, in program
order: the analyzer request, the database INSERT (with the outcome of the
fire-and-forget write), and the three `transporter.sendMail` calls. -/
inductive Event where
  | analyzeRequest (promptText : String)
  | dbInsert (row : StoredRecord) (writeOk : Bool)
  | clientEmail (recipient : String) (name : String) (address : String) (reportText : String)
  | adminEmail (firstName lastName email phone address : String)
  | leadEmail (firstName lastName email phone address : String)
  deriving DecidableEq, Repr

/-- The HTTP response of the handler: `res.json(SUCCESS, report)` or the
catch-all `res.status(500).json(ERROR)`. -/
inductive HttpResult where
  | ok (report : String)
  | err (message : String)
  deriving DecidableEq, Repr

/-- Outcomes of the external collaborators during one run, made explicit:
PDF parsing, the analyzer call combined with `JSON.parse` (`none` means the
call or the parse threw, with `analyzeErrMsg` the thrown message), the
durability of the fire-and-forget `db.run` write, and the three awaited
`sendMail` calls. `now` is the ambient date. -/
structure Env where
  pdfParse : Except String String
  analyzeResult : Option Analysis
  analyzeErrMsg : String
  dbWriteOk : Bool
  clientSend : Except String Unit
  adminSend : Except String Unit
  leadSend : Except String Unit
  now : DateCtx
  deriving Repr

/-- The row built by the INSERT of src/server.js lines 131-134. The
statement's column list omits `payment_id` and `payment_amount`, so those
columns are left NULL. -/
def rowOf (req : ReqBody) (analysis : Analysis) : StoredRecord :=
  { first_name := req.firstName
    last_name := req.lastName
    email := req.email
    phone := req.phone
    property_address := req.propertyAddress
    payment_id := none
    payment_amount := none
    report_data := serializeAnalysis analysis
    termites_mentioned := analysis.termites_mentioned
    pests_mentioned := analysis.pests_mentioned
    rot_mentioned := analysis.rot_mentioned }

/-- The `/api/process-report` handler (src/server.js lines 84-149) as a
trace semantics: given the request fields and the collaborator outcomes it
returns the ordered list of observable events and the HTTP response. Any
thrown error falls to the catch block, which stops the remaining steps and
answers with status 500 and the error message. `db.run` is invoked without
a callback, so a failed write throws nothing and the handler continues. -/
def processReport (req : ReqBody) (env : Env) : List Event × HttpResult :=
  match env.pdfParse with
  | Except.error e => ([], HttpResult.err e)
  | Except.ok pdfText =>
    match env.analyzeResult with
    | none => ([Event.analyzeRequest (promptFor pdfText)], HttpResult.err env.analyzeErrMsg)
    | some analysis =>
      let reportText :=
        generateReportText req.firstName req.lastName req.propertyAddress analysis env.now
      let evs := [Event.analyzeRequest (promptFor pdfText),
                  Event.dbInsert (rowOf req analysis) env.dbWriteOk,
                  Event.clientEmail req.email req.firstName req.propertyAddress reportText]
      match env.clientSend with
      | Except.error e => (evs, HttpResult.err e)
      | Except.ok _ =>
        let evs := evs ++
          [Event.adminEmail req.firstName req.lastName req.email req.phone req.propertyAddress]
        match env.adminSend with
        | Except.error e => (evs, HttpResult.err e)
        | Except.ok _ =>
          if analysis.termites_mentioned || analysis.pests_mentioned then
            let evs := evs ++
              [Event.leadEmail req.firstName req.lastName req.email req.phone req.propertyAddress]
            match env.leadSend with
            | Except.error e => (evs, HttpResult.err e)
            | Except.ok _ => (evs, HttpResult.ok reportText)
          else
            (evs, HttpResult.ok reportText)

/-- Is this event the lead (pest) notification send? -/
def isLeadEvent : Event → Bool
  | Event.leadEmail _ _ _ _ _ => true
  | _ => false

/-- Is this event the admin notification send? -/
def isAdminEvent : Event → Bool
  | Event.adminEmail _ _ _ _ _ => true
  | _ => false

/-- Is this event the client notification send? -/
def isClientEvent : Event → Bool
  | Event.clientEmail _ _ _ _ => true
  | _ => false

/-- The records written to the persistence store during a run, in order. -/
def recordsWritten (evs : List Event) : List StoredRecord :=
  evs.filterMap (fun e =>
    match e with
    | Event.dbInsert row _ => some row
    | _ => none)

/-- Did the handler answer with the success response? -/
def isSuccess : HttpResult → Bool
  | HttpResult.ok _ => true
  | HttpResult.err _ => false

/-- Specification-shaped rendering of the category section: each category
exactly once, in input order, with `categorySeparator` between consecutive
blocks and none after the last; the empty list renders nothing. -/
def categoryBlocksSpec : List RepairCategory → String
  | [] => ""
  | [cat] => categoryText cat
  | cat :: cat2 :: rest => categoryText cat ++ categorySeparator ++ categoryBlocksSpec (cat2 :: rest)

lemma foldl_add_eq_sum (f : RepairCategory → Nat) (l : List RepairCategory) :
    ∀ s : Nat, l.foldl (fun sum cat => sum + f cat) s = s + (l.map f).sum := by
  induction l with
  | nil => intro s; simp
  | cons c t ih =>
    intro s
    simp only [List.foldl_cons, ih, List.map_cons, List.sum_cons]
    omega

lemma strJoin_enumFrom_sep (n : Nat) :
    ∀ (l : List RepairCategory), ∀ k : Nat, k + l.length = n →
      strJoin ((l.enumFrom k).map (fun p =>
        categoryText p.2 ++ if p.1 < n - 1 then categorySeparator else "")) =
      categoryBlocksSpec l := by
  intro l
  induction l with
  | nil => intro k h; rfl
  | cons c t ih =>
    intro k h
    cases t with
    | nil =>
      simp only [List.enumFrom, List.map_cons, List.map_nil, strJoin, categoryBlocksSpec]
      rw [if_neg (by simp at h; omega)]
      simp
    | cons c2 t2 =>
      have hk : k < n - 1 := by simp at h; omega
      have ihh := ih (k + 1) (by simp at h ⊢; omega)
      simp only [List.enumFrom, List.map_cons, strJoin, categoryBlocksSpec] at ihh ⊢
      rw [if_pos hk, ihh, String.append_assoc]

/-- C1: for every estimate, `generateReportText` is the header, then one
block per repair category in input order with the separator between
consecutive blocks and none after the last, then the footer whose two total
lines carry the sum of the per-category handyman costs and the sum of the
per-category contractor costs; for the empty category list no block is
rendered and both totals are 0. -/
theorem generateReportText_blocks_and_totals
    (firstName lastName propertyAddress : String) (analysis : Analysis) (now : DateCtx) :
    generateReportText firstName lastName propertyAddress analysis now
      = reportHeaderText firstName lastName propertyAddress now
        ++ categoryBlocksSpec analysis.repair_categories
        ++ totalsFooterText ((analysis.repair_categories.map RepairCategory.handyman_cost).sum)
            ((analysis.repair_categories.map RepairCategory.contractor_cost).sum) now
    ∧ (analysis.repair_categories = [] →
        generateReportText firstName lastName propertyAddress analysis now
          = reportHeaderText firstName lastName propertyAddress now
            ++ totalsFooterText 0 0 now) := by
  have main : generateReportText firstName lastName propertyAddress analysis now
      = reportHeaderText firstName lastName propertyAddress now
        ++ categoryBlocksSpec analysis.repair_categories
        ++ totalsFooterText ((analysis.repair_categories.map RepairCategory.handyman_cost).sum)
            ((analysis.repair_categories.map RepairCategory.contractor_cost).sum) now := by
    unfold generateReportText
    rw [show analysis.repair_categories.enum = analysis.repair_categories.enumFrom 0 from rfl]
    rw [strJoin_enumFrom_sep analysis.repair_categories.length analysis.repair_categories 0
      (by simp)]
    rw [foldl_add_eq_sum RepairCategory.handyman_cost analysis.repair_categories 0,
      foldl_add_eq_sum RepairCategory.contractor_cost analysis.repair_categories 0]
    simp
  refine ⟨main, fun h => ?_⟩
  rw [main, h]
  simp [categoryBlocksSpec]

/-- Witness for C1 at a concrete empty estimate. -/
theorem generateReportText_blocks_and_totals_witness :
    generateReportText "Ann" "Lee" "9 Oak Ave" ⟨[], false, false, false⟩ ⟨"1/2/2026", 2026⟩
      = reportHeaderText "Ann" "Lee" "9 Oak Ave" ⟨"1/2/2026", 2026⟩
        ++ totalsFooterText 0 0 ⟨"1/2/2026", 2026⟩ :=
  (generateReportText_blocks_and_totals "Ann" "Lee" "9 Oak Ave" ⟨[], false, false, false⟩
    ⟨"1/2/2026", 2026⟩).2 rfl

/-- C2: `generateReportText` is deterministic: two calls whose identity
fields, estimate, and injected date context agree pairwise return the same
string. The ambient date is the only effectful input of the source
function and is an explicit parameter of the embedding. -/
theorem generateReportText_deterministic
    (fn1 ln1 ad1 : String) (a1 : Analysis) (d1 : DateCtx)
    (fn2 ln2 ad2 : String) (a2 : Analysis) (d2 : DateCtx)
    (hfn : fn1 = fn2) (hln : ln1 = ln2) (had : ad1 = ad2) (ha : a1 = a2) (hd : d1 = d2) :
    generateReportText fn1 ln1 ad1 a1 d1 = generateReportText fn2 ln2 ad2 a2 d2 := by
  subst hfn hln had ha hd; rfl

/-- Witness for C2 at a concrete input. -/
theorem generateReportText_deterministic_witness :
    generateReportText "Jane" "Doe" "123 Main St" ⟨[], true, false, true⟩ ⟨"10/11/2025", 2025⟩
      = generateReportText "Jane" "Doe" "123 Main St" ⟨[], true, false, true⟩
          ⟨"10/11/2025", 2025⟩ :=
  generateReportText_deterministic "Jane" "Doe" "123 Main St" ⟨[], true, false, true⟩
    ⟨"10/11/2025", 2025⟩ "Jane" "Doe" "123 Main St" ⟨[], true, false, true⟩
    ⟨"10/11/2025", 2025⟩ rfl rfl rfl rfl rfl

/-- C10: the report text does not depend on the submitter's email or phone
(which are not inputs of `generateReportText` at all) nor on the three
boolean flags of the estimate: two requests agreeing on first name, last
name and property address, with estimates sharing the same category list
but arbitrary flags, and the same date, yield identical reports. -/
theorem generateReportText_ignores_contact_and_flags
    (r1 r2 : ReqBody) (a1 a2 : Analysis) (now : DateCtx)
    (hfn : r1.firstName = r2.firstName) (hln : r1.lastName = r2.lastName)
    (had : r1.propertyAddress = r2.propertyAddress)
    (hcats : a1.repair_categories = a2.repair_categories) :
    generateReportText r1.firstName r1.lastName r1.propertyAddress a1 now
      = generateReportText r2.firstName r2.lastName r2.propertyAddress a2 now := by
  rw [hfn, hln, had]
  unfold generateReportText
  rw [hcats]

/-- Witness for C10: same identity, different email, phone and flags. -/
theorem generateReportText_ignores_contact_and_flags_witness :
    generateReportText "Jane" "Doe" "123 Main St" ⟨[], false, false, false⟩ ⟨"10/11/2025", 2025⟩
      = generateReportText "Jane" "Doe" "123 Main St" ⟨[], true, true, true⟩
          ⟨"10/11/2025", 2025⟩ :=
  generateReportText_ignores_contact_and_flags
    ⟨"Jane", "Doe", "a@example.com", "555-0100", "123 Main St"⟩
    ⟨"Jane", "Doe", "b@example.com", "555-0199", "123 Main St"⟩
    ⟨[], false, false, false⟩ ⟨[], true, true, true⟩ ⟨"10/11/2025", 2025⟩ rfl rfl rfl rfl

/-- Does `pat` occur as a contiguous subsequence of `l`? -/
def containsSeq (pat : List Char) : List Char → Bool
  | [] => pat.isEmpty
  | c :: rest => pat.isPrefixOf (c :: rest) || containsSeq pat rest

/-- Does the string `pat` occur as a contiguous substring of `s`? -/
def strContains (s pat : String) : Bool := containsSeq pat.data s.data

/-- The single-category estimate of the spec §8 end-to-end example. -/
def exampleAnalysis : Analysis :=
  ⟨[⟨"Roof Repair", [⟨"3.2", "Missing shingles"⟩], 500, 1200, "Roofer"⟩], false, false, false⟩

/-- A fixed date context at which the example report is evaluated. -/
def exampleDate : DateCtx := ⟨"10/11/2025", 2025⟩

/-- The report of the spec §8 example, rendered at `exampleDate`. -/
def exampleReport : String :=
  generateReportText "Jane" "Doe" "123 Main St" exampleAnalysis exampleDate

set_option maxRecDepth 8192 in
/-- C3 counterexample: the report for the Jane Doe example does NOT contain
the substring "Handyman Total: $500" (single space after the colon): the
template of src/server.js line 197 puts three spaces after the colon,
emitting "Handyman Total:   $500". -/
theorem exampleReport_no_single_space_handyman_total :
    strContains exampleReport "Handyman Total: $500" = false := by decide

set_option maxRecDepth 8192 in
/-- C3 amended: for the Jane Doe example identity and estimate, the report
contains "Roof Repair", "$500", "$1,200", "Section 3.2 – Missing shingles",
"Roofer", "Handyman Total:   $500" (three spaces after the colon, aligning
with the contractor line, as the source template writes it) and
"Contractor Total: $1,200". -/
theorem exampleReport_contains_expected :
    strContains exampleReport "Roof Repair" = true
    ∧ strContains exampleReport "$500" = true
    ∧ strContains exampleReport "$1,200" = true
    ∧ strContains exampleReport "Section 3.2 – Missing shingles" = true
    ∧ strContains exampleReport "Roofer" = true
    ∧ strContains exampleReport "Handyman Total:   $500" = true
    ∧ strContains exampleReport "Contractor Total: $1,200" = true := by
  decide

/-- The report text computed in a run whose analysis step succeeded. -/
def reportFor (req : ReqBody) (a : Analysis) (now : DateCtx) : String :=
  generateReportText req.firstName req.lastName req.propertyAddress a now

/-- The events of a successful-analysis run up to and including the client
email attempt: analyzer request, fire-and-forget INSERT, client send. -/
def evsClient (req : ReqBody) (env : Env) (text : String) (a : Analysis) : List Event :=
  [Event.analyzeRequest (promptFor text),
   Event.dbInsert (rowOf req a) env.dbWriteOk,
   Event.clientEmail req.email req.firstName req.propertyAddress (reportFor req a env.now)]

/-- The admin notification event of a run. -/
def adminEv (req : ReqBody) : Event :=
  Event.adminEmail req.firstName req.lastName req.email req.phone req.propertyAddress

/-- The lead (pest) notification event of a run. -/
def leadEv (req : ReqBody) : Event :=
  Event.leadEmail req.firstName req.lastName req.email req.phone req.propertyAddress

lemma processReport_pdf_error (req : ReqBody) (env : Env) (e : String)
    (h : env.pdfParse = Except.error e) :
    processReport req env = ([], HttpResult.err e) := by
  simp [processReport, h]

lemma processReport_analyze_none (req : ReqBody) (env : Env) (text : String)
    (hpdf : env.pdfParse = Except.ok text) (hana : env.analyzeResult = none) :
    processReport req env
      = ([Event.analyzeRequest (promptFor text)], HttpResult.err env.analyzeErrMsg) := by
  simp [processReport, hpdf, hana]

lemma processReport_client_error (req : ReqBody) (env : Env) (text : String) (a : Analysis)
    (e : String) (hpdf : env.pdfParse = Except.ok text) (hana : env.analyzeResult = some a)
    (hc : env.clientSend = Except.error e) :
    processReport req env = (evsClient req env text a, HttpResult.err e) := by
  simp [processReport, hpdf, hana, hc, evsClient, reportFor]

lemma processReport_admin_error (req : ReqBody) (env : Env) (text : String) (a : Analysis)
    (e : String) (hpdf : env.pdfParse = Except.ok text) (hana : env.analyzeResult = some a)
    (hc : env.clientSend = Except.ok ()) (hadm : env.adminSend = Except.error e) :
    processReport req env = (evsClient req env text a ++ [adminEv req], HttpResult.err e) := by
  simp [processReport, hpdf, hana, hc, hadm, evsClient, reportFor, adminEv]

lemma processReport_flags_false (req : ReqBody) (env : Env) (text : String) (a : Analysis)
    (hpdf : env.pdfParse = Except.ok text) (hana : env.analyzeResult = some a)
    (hc : env.clientSend = Except.ok ()) (hadm : env.adminSend = Except.ok ())
    (ht : a.termites_mentioned = false) (hp : a.pests_mentioned = false) :
    processReport req env
      = (evsClient req env text a ++ [adminEv req],
         HttpResult.ok (reportFor req a env.now)) := by
  simp [processReport, hpdf, hana, hc, hadm, ht, hp, evsClient, reportFor, adminEv]

lemma processReport_lead_error (req : ReqBody) (env : Env) (text : String) (a : Analysis)
    (e : String) (hpdf : env.pdfParse = Except.ok text) (hana : env.analyzeResult = some a)
    (hc : env.clientSend = Except.ok ()) (hadm : env.adminSend = Except.ok ())
    (hf : (a.termites_mentioned || a.pests_mentioned) = true)
    (hl : env.leadSend = Except.error e) :
    processReport req env
      = (evsClient req env text a ++ [adminEv req] ++ [leadEv req], HttpResult.err e) := by
  simp [processReport, hpdf, hana, hc, hadm, hf, hl, evsClient, reportFor, adminEv, leadEv]

lemma processReport_lead_ok (req : ReqBody) (env : Env) (text : String) (a : Analysis)
    (hpdf : env.pdfParse = Except.ok text) (hana : env.analyzeResult = some a)
    (hc : env.clientSend = Except.ok ()) (hadm : env.adminSend = Except.ok ())
    (hf : (a.termites_mentioned || a.pests_mentioned) = true)
    (hl : env.leadSend = Except.ok ()) :
    processReport req env
      = (evsClient req env text a ++ [adminEv req] ++ [leadEv req],
         HttpResult.ok (reportFor req a env.now)) := by
  simp [processReport, hpdf, hana, hc, hadm, hf, hl, evsClient, reportFor, adminEv, leadEv]

/-- Fixture request used by concrete runs. -/
def reqEx : ReqBody := ⟨"Jane", "Doe", "jane@example.com", "555-0100", "123 Main St"⟩

/-- Fixture analysis with the termite flag set. -/
def analysisPest : Analysis :=
  ⟨[⟨"Roof Repair", [⟨"3.2", "Missing shingles"⟩], 500, 1200, "Roofer"⟩], true, false, false⟩

/-- Fixture analysis with no content flags set. -/
def analysisQuiet : Analysis :=
  ⟨[⟨"Roof Repair", [⟨"3.2", "Missing shingles"⟩], 500, 1200, "Roofer"⟩], false, false, false⟩

/-- Fixture environment in which every collaborator succeeds. -/
def envOk (a : Analysis) : Env :=
  ⟨Except.ok "inspection text", some a, "", true,
   Except.ok (), Except.ok (), Except.ok (), ⟨"10/11/2025", 2025⟩⟩

/-- Fixture environment in which the client email send throws. -/
def envClientFail (a : Analysis) : Env :=
  ⟨Except.ok "inspection text", some a, "", true,
   Except.error "SMTP connection refused", Except.ok (), Except.ok (), ⟨"10/11/2025", 2025⟩⟩

/-- Fixture environment in which the analyzer response fails to parse. -/
def envParseFail : Env :=
  ⟨Except.ok "inspection text", none, "Unexpected token U in JSON at position 0", true,
   Except.ok (), Except.ok (), Except.ok (), ⟨"10/11/2025", 2025⟩⟩

lemma processReport_trace_split (req : ReqBody) (env : Env) (text : String) (a : Analysis)
    (hpdf : env.pdfParse = Except.ok text) (hana : env.analyzeResult = some a) :
    ∃ tail, (processReport req env).1 = evsClient req env text a ++ tail
      ∧ ∀ e ∈ tail, e = adminEv req ∨ e = leadEv req := by
  cases hc : env.clientSend with
  | error e =>
    exact ⟨[], by rw [processReport_client_error req env text a e hpdf hana hc]; simp, by simp⟩
  | ok u =>
    cases u
    cases hadm : env.adminSend with
    | error e =>
      refine ⟨[adminEv req], ?_, by simp⟩
      rw [processReport_admin_error req env text a e hpdf hana hc hadm]
    | ok u2 =>
      cases u2
      by_cases hf : (a.termites_mentioned || a.pests_mentioned) = true
      · cases hl : env.leadSend with
        | error e =>
          refine ⟨[adminEv req, leadEv req], ?_, by simp⟩
          rw [processReport_lead_error req env text a e hpdf hana hc hadm hf hl]
          simp
        | ok u3 =>
          cases u3
          refine ⟨[adminEv req, leadEv req], ?_, by simp⟩
          rw [processReport_lead_ok req env text a hpdf hana hc hadm hf hl]
          simp
      · simp only [Bool.or_eq_true, not_or, Bool.not_eq_true] at hf
        refine ⟨[adminEv req], ?_, by simp⟩
        rw [processReport_flags_false req env text a hpdf hana hc hadm hf.1 hf.2]

/-- C4: in every run that reaches the notification stage (the analysis
succeeded and the client and admin sends did not throw), the lead
notification is attempted exactly once when `termites_mentioned OR
pests_mentioned` holds and never otherwise; moreover in any run whatsoever
of an estimate whose two flags are false, the lead notification is never
dispatched, independently of `rot_mentioned` and of any failures. -/
theorem processReport_lead_iff_pest_flags :
    (∀ (req : ReqBody) (env : Env) (a : Analysis) (text : String),
      env.pdfParse = Except.ok text → env.analyzeResult = some a →
      env.clientSend = Except.ok () → env.adminSend = Except.ok () →
      (processReport req env).1.countP isLeadEvent
        = if a.termites_mentioned || a.pests_mentioned then 1 else 0)
    ∧ (∀ (req : ReqBody) (env : Env) (a : Analysis),
      env.analyzeResult = some a →
      a.termites_mentioned = false → a.pests_mentioned = false →
      (processReport req env).1.countP isLeadEvent = 0) := by
  constructor
  · intro req env a text hpdf hana hc hadm
    by_cases hf : (a.termites_mentioned || a.pests_mentioned) = true
    · rw [if_pos hf]
      cases hl : env.leadSend with
      | error e =>
        rw [processReport_lead_error req env text a e hpdf hana hc hadm hf hl]
        simp [evsClient, adminEv, leadEv, isLeadEvent, List.countP_append, List.countP_cons]
      | ok u =>
        cases u
        rw [processReport_lead_ok req env text a hpdf hana hc hadm hf hl]
        simp [evsClient, adminEv, leadEv, isLeadEvent, List.countP_append, List.countP_cons]
    · rw [if_neg hf]
      simp only [Bool.or_eq_true, not_or, Bool.not_eq_true] at hf
      rw [processReport_flags_false req env text a hpdf hana hc hadm hf.1 hf.2]
      simp [evsClient, adminEv, isLeadEvent, List.countP_append, List.countP_cons]
  · intro req env a hana ht hp
    cases hpdf : env.pdfParse with
    | error e =>
      rw [processReport_pdf_error req env e hpdf]
      simp
    | ok text =>
      cases hc : env.clientSend with
      | error e =>
        rw [processReport_client_error req env text a e hpdf hana hc]
        simp [evsClient, isLeadEvent, List.countP_cons]
      | ok u =>
        cases u
        cases hadm : env.adminSend with
        | error e =>
          rw [processReport_admin_error req env text a e hpdf hana hc hadm]
          simp [evsClient, adminEv, isLeadEvent, List.countP_append, List.countP_cons]
        | ok u2 =>
          cases u2
          rw [processReport_flags_false req env text a hpdf hana hc hadm ht hp]
          simp [evsClient, adminEv, isLeadEvent, List.countP_append, List.countP_cons]

/-- Witness for C4: with the termite flag set and all sends succeeding the
lead notification fires exactly once; with both flags clear it never
fires. -/
theorem processReport_lead_iff_pest_flags_witness :
    (processReport reqEx (envOk analysisPest)).1.countP isLeadEvent = 1
    ∧ (processReport reqEx (envOk analysisQuiet)).1.countP isLeadEvent = 0 :=
  ⟨processReport_lead_iff_pest_flags.1 reqEx (envOk analysisPest) analysisPest
      "inspection text" rfl rfl rfl rfl,
   processReport_lead_iff_pest_flags.2 reqEx (envOk analysisQuiet) analysisQuiet rfl rfl rfl⟩

/-- C5: when the extracted text reaches the analyzer but the analyzer's
response is not parseable, the run answers the failure response carrying
the thrown message, its trace holds nothing but the analyzer request — so
no report text was produced or delivered — and the persistence store
receives no record. -/
theorem processReport_parse_failure_no_effects
    (req : ReqBody) (env : Env) (text : String)
    (hpdf : env.pdfParse = Except.ok text) (hana : env.analyzeResult = none) :
    processReport req env
      = ([Event.analyzeRequest (promptFor text)], HttpResult.err env.analyzeErrMsg)
    ∧ recordsWritten (processReport req env).1 = []
    ∧ isSuccess (processReport req env).2 = false := by
  have h := processReport_analyze_none req env text hpdf hana
  refine ⟨h, ?_, ?_⟩
  · rw [h]; rfl
  · rw [h]; rfl

/-- Witness for C5 at a concrete malformed-response run. -/
theorem processReport_parse_failure_no_effects_witness :
    processReport reqEx envParseFail
      = ([Event.analyzeRequest (promptFor "inspection text")],
         HttpResult.err "Unexpected token U in JSON at position 0")
    ∧ recordsWritten (processReport reqEx envParseFail).1 = []
    ∧ isSuccess (processReport reqEx envParseFail).2 = false :=
  processReport_parse_failure_no_effects reqEx envParseFail "inspection text" rfl rfl

/-- C6 counterexample: a concrete run whose analysis succeeded but whose
client email send throws returns the 500 failure response, not the success
response: awaited notification failures are caught by the handler's catch
block, contradicting the claim that a notification failure still returns
success. -/
theorem notification_failure_returns_error :
    (processReport reqEx (envClientFail analysisQuiet)).2
      = HttpResult.err "SMTP connection refused"
    ∧ isSuccess (processReport reqEx (envClientFail analysisQuiet)).2 = false := by
  exact ⟨rfl, rfl⟩

/-- C6 amended: after a successful analysis, a failure of the
fire-and-forget persistence write cannot abort the workflow — the success
response with the report is returned even when the write fails — but a
failure of any awaited notification send (client, admin, or lead) is
caught by the handler and yields the failure response instead. -/
theorem processReport_success_boundary :
    (∀ (req : ReqBody) (env : Env) (a : Analysis) (text : String),
      env.pdfParse = Except.ok text → env.analyzeResult = some a →
      env.clientSend = Except.ok () → env.adminSend = Except.ok () →
      env.leadSend = Except.ok () →
      (processReport req { env with dbWriteOk := false }).2
        = HttpResult.ok (reportFor req a env.now))
    ∧ (∀ (req : ReqBody) (env : Env) (a : Analysis) (text e : String),
      env.pdfParse = Except.ok text → env.analyzeResult = some a →
      env.clientSend = Except.error e →
      (processReport req env).2 = HttpResult.err e)
    ∧ (∀ (req : ReqBody) (env : Env) (a : Analysis) (text e : String),
      env.pdfParse = Except.ok text → env.analyzeResult = some a →
      env.clientSend = Except.ok () → env.adminSend = Except.error e →
      (processReport req env).2 = HttpResult.err e)
    ∧ (∀ (req : ReqBody) (env : Env) (a : Analysis) (text e : String),
      env.pdfParse = Except.ok text → env.analyzeResult = some a →
      env.clientSend = Except.ok () → env.adminSend = Except.ok () →
      (a.termites_mentioned || a.pests_mentioned) = true →
      env.leadSend = Except.error e →
      (processReport req env).2 = HttpResult.err e) := by
  refine ⟨?_, ?_, ?_, ?_⟩
  · intro req env a text hpdf hana hc hadm hl
    by_cases hf : (a.termites_mentioned || a.pests_mentioned) = true
    · rw [processReport_lead_ok req { env with dbWriteOk := false } text a hpdf hana hc hadm
        hf hl]
    · simp only [Bool.or_eq_true, not_or, Bool.not_eq_true] at hf
      rw [processReport_flags_false req { env with dbWriteOk := false } text a hpdf hana hc
        hadm hf.1 hf.2]
  · intro req env a text e hpdf hana hc
    rw [processReport_client_error req env text a e hpdf hana hc]
  · intro req env a text e hpdf hana hc hadm
    rw [processReport_admin_error req env text a e hpdf hana hc hadm]
  · intro req env a text e hpdf hana hc hadm hf hl
    rw [processReport_lead_error req env text a e hpdf hana hc hadm hf hl]

/-- Witness for C6 amended: a concrete run with a failed persistence write
still answers success; a concrete run with a failed client send answers
the failure response. -/
theorem processReport_success_boundary_witness :
    (processReport reqEx { envOk analysisQuiet with dbWriteOk := false }).2
      = HttpResult.ok (reportFor reqEx analysisQuiet ⟨"10/11/2025", 2025⟩)
    ∧ (processReport reqEx (envClientFail analysisPest)).2
      = HttpResult.err "SMTP connection refused" :=
  ⟨processReport_success_boundary.1 reqEx (envOk analysisQuiet) analysisQuiet
      "inspection text" rfl rfl rfl rfl rfl,
   processReport_success_boundary.2.1 reqEx (envClientFail analysisPest) analysisPest
      "inspection text" "SMTP connection refused" rfl rfl rfl⟩

/-- C7: the inspection text submitted to the analyzer is `analyzerInput`
of the extracted text: a prefix of it, at most 40000 characters long, and
equal to the whole extracted text whenever that text has at most 40000
characters (a hard truncation, no summarization); every run in which the
PDF text was extracted emits the analyzer request whose prompt appends
exactly this truncated text to the fixed template. -/
theorem analyzerInput_hard_truncation :
    (∀ t : String, (∃ rest, t = analyzerInput t ++ rest) ∧ (analyzerInput t).length ≤ 40000)
    ∧ (∀ t : String, t.length ≤ 40000 → analyzerInput t = t)
    ∧ (∀ (req : ReqBody) (env : Env) (text : String), env.pdfParse = Except.ok text →
        Event.analyzeRequest (promptTemplate ++ analyzerInput text)
          ∈ (processReport req env).1) := by
  refine ⟨fun t => ⟨⟨String.mk (t.data.drop 40000), ?_⟩, ?_⟩, fun t h => ?_,
    fun req env text hpdf => ?_⟩
  · cases t with
    | mk data =>
      show String.mk data
        = String.mk (data.take 40000) ++ String.mk (data.drop 40000)
      rw [show String.mk (data.take 40000) ++ String.mk (data.drop 40000)
          = String.mk (data.take 40000 ++ data.drop 40000) from rfl]
      rw [List.take_append_drop]
  · show (t.data.take 40000).length ≤ 40000
    rw [List.length_take]
    exact min_le_left _ _
  · cases t with
    | mk data =>
      show String.mk (data.take 40000) = String.mk data
      rw [List.take_of_length_le h]
  · cases hana : env.analyzeResult with
    | none =>
      rw [processReport_analyze_none req env text hpdf hana]
      simp [promptFor]
    | some a =>
      obtain ⟨tail, htr, _⟩ := processReport_trace_split req env text a hpdf hana
      rw [htr]
      simp [evsClient, promptFor]

/-- Witness for C7: a short text is submitted whole, and a concrete run
emits the analyzer request built from the template and truncated text. -/
theorem analyzerInput_hard_truncation_witness :
    analyzerInput "short text" = "short text"
    ∧ Event.analyzeRequest (promptTemplate ++ analyzerInput "inspection text")
        ∈ (processReport reqEx (envOk analysisQuiet)).1 :=
  ⟨analyzerInput_hard_truncation.2.1 "short text" (by decide),
   analyzerInput_hard_truncation.2.2 reqEx (envOk analysisQuiet) "inspection text" rfl⟩

/-- C8 counterexample: a fully successful concrete run writes exactly one
record to the persistence store, and that record's `payment_id` and
`payment_amount` are both NULL: the INSERT of src/server.js lines 131-132
lists neither column, so the written record does not contain the payment
metadata the claim requires. -/
theorem storedRecord_missing_payment_metadata :
    (recordsWritten (processReport reqEx (envOk analysisQuiet)).1).map
        (fun r => (r.payment_id, r.payment_amount)) = [(none, none)] := by
  rfl

/-- C8 amended: every record written by the workflow carries the
Submission identity fields, the serialized CostEstimate of the run's
analysis and its three boolean flags, but not the payment metadata: the
INSERT omits `payment_id` and `payment_amount`, so both columns are always
NULL in the written record. -/
theorem storedRecord_contents (req : ReqBody) (env : Env) (r : StoredRecord)
    (h : r ∈ recordsWritten (processReport req env).1) :
    r.first_name = req.firstName ∧ r.last_name = req.lastName ∧ r.email = req.email
    ∧ r.phone = req.phone ∧ r.property_address = req.propertyAddress
    ∧ r.payment_id = none ∧ r.payment_amount = none
    ∧ ∃ a, env.analyzeResult = some a ∧ r.report_data = serializeAnalysis a
        ∧ r.termites_mentioned = a.termites_mentioned
        ∧ r.pests_mentioned = a.pests_mentioned
        ∧ r.rot_mentioned = a.rot_mentioned := by
  have key : ∃ a, env.analyzeResult = some a ∧ r = rowOf req a := by
    cases hpdf : env.pdfParse with
    | error e =>
      rw [processReport_pdf_error req env e hpdf] at h
      simp [recordsWritten] at h
    | ok text =>
      cases hana : env.analyzeResult with
      | none =>
        rw [processReport_analyze_none req env text hpdf hana] at h
        simp [recordsWritten] at h
      | some a =>
        obtain ⟨tail, htr, hmem⟩ := processReport_trace_split req env text a hpdf hana
        rw [htr] at h
        refine ⟨a, rfl, ?_⟩
        simp only [recordsWritten, List.filterMap_append, evsClient, List.filterMap_cons,
          List.filterMap_nil, List.mem_append] at h
        rcases h with h | h
        · simpa using h
        · exfalso
          rw [List.mem_filterMap] at h
          obtain ⟨ev, hev, hsome⟩ := h
          rcases hmem ev hev with h1 | h1 <;> rw [h1] at hsome <;>
            simp [adminEv, leadEv] at hsome
  obtain ⟨a, hana, hr⟩ := key
  subst hr
  exact ⟨rfl, rfl, rfl, rfl, rfl, rfl, rfl, a, hana, rfl, rfl, rfl, rfl⟩

set_option maxRecDepth 8192 in
/-- Witness for C8 amended: the record of a concrete successful run has no
payment metadata and carries the identity fields. -/
theorem storedRecord_contents_witness :
    (rowOf reqEx analysisQuiet).payment_id = none
    ∧ (rowOf reqEx analysisQuiet).payment_amount = none
    ∧ (rowOf reqEx analysisQuiet).first_name = reqEx.firstName := by
  have h := storedRecord_contents reqEx (envOk analysisQuiet) (rowOf reqEx analysisQuiet)
    (by decide)
  exact ⟨h.2.2.2.2.2.1, h.2.2.2.2.2.2.1, h.1⟩

/-- C9: the notification sends happen strictly in the order client, admin,
lead — the full trace of a run in which all sends succeed lists them in
that order — and an exception from the client email aborts the later
sends: such a run dispatches neither the admin nor the lead notification
and answers the failure response carrying the client send's error. -/
theorem processReport_send_order_and_abort :
    (∀ (req : ReqBody) (env : Env) (a : Analysis) (text : String),
      env.pdfParse = Except.ok text → env.analyzeResult = some a →
      env.clientSend = Except.ok () → env.adminSend = Except.ok () →
      env.leadSend = Except.ok () →
      (processReport req env).1
        = evsClient req env text a ++ [adminEv req]
          ++ (if a.termites_mentioned || a.pests_mentioned then [leadEv req] else []))
    ∧ (∀ (req : ReqBody) (env : Env) (a : Analysis) (text e : String),
      env.pdfParse = Except.ok text → env.analyzeResult = some a →
      env.clientSend = Except.error e →
      (processReport req env).1.countP isAdminEvent = 0
      ∧ (processReport req env).1.countP isLeadEvent = 0
      ∧ (processReport req env).2 = HttpResult.err e) := by
  constructor
  · intro req env a text hpdf hana hc hadm hl
    by_cases hf : (a.termites_mentioned || a.pests_mentioned) = true
    · rw [processReport_lead_ok req env text a hpdf hana hc hadm hf hl, if_pos hf]
    · have hf0 := hf
      simp only [Bool.or_eq_true, not_or, Bool.not_eq_true] at hf
      rw [processReport_flags_false req env text a hpdf hana hc hadm hf.1 hf.2, if_neg hf0]
      simp
  · intro req env a text e hpdf hana hc
    rw [processReport_client_error req env text a e hpdf hana hc]
    refine ⟨?_, ?_, rfl⟩ <;>
      simp [evsClient, isAdminEvent, isLeadEvent, List.countP_cons]

/-- Witness for C9: a concrete fully successful run shows the
client-admin-lead order, and a concrete client-send failure dispatches no
admin or lead notification. -/
theorem processReport_send_order_and_abort_witness :
    (processReport reqEx (envOk analysisPest)).1
      = evsClient reqEx (envOk analysisPest) "inspection text" analysisPest
        ++ [adminEv reqEx]
        ++ (if analysisPest.termites_mentioned || analysisPest.pests_mentioned
            then [leadEv reqEx] else [])
    ∧ (processReport reqEx (envClientFail analysisPest)).1.countP isAdminEvent = 0
    ∧ (processReport reqEx (envClientFail analysisPest)).1.countP isLeadEvent = 0
    ∧ (processReport reqEx (envClientFail analysisPest)).2
        = HttpResult.err "SMTP connection refused" :=
  ⟨processReport_send_order_and_abort.1 reqEx (envOk analysisPest) analysisPest
      "inspection text" rfl rfl rfl rfl rfl,
   processReport_send_order_and_abort.2 reqEx (envClientFail analysisPest) analysisPest
      "inspection text" "SMTP connection refused" rfl rfl rfl⟩

end RepairIntel
